import Mathlib

/-!
Verification development for the PharmaGuard pharmacogenomic core.

This file gives a shallow embedding of the deterministic classification
pipeline of the repository (backend/risk_engine.py and backend/vcf_parser.py):
activity-score phenotype classification, diplotype resolution from parsed
variant data, VCF parsing, and the static risk-assessment fallback.
Python floats are modelled as exact rationals (every activity score and
confidence value in the tables is a dyadic rational, so float arithmetic in
the source is exact and the rational model is faithful).  Python dicts are
modelled as association lists with insertion-order semantics (later writes
to the same key overwrite in place), and dict.get with a default becomes an
Option-valued lookup with getD.
-/

namespace PharmaGuard

/-- First-match association-list lookup, the model of Python `dict[key]`
access on dicts built in insertion order with in-place overwrites. -/
def lookupTable {α : Type} : List (String × α) → String → Option α
  | [], _ => none
  | p :: rest, k => if p.1 = k then some p.2 else lookupTable rest k

/-- Association-list lookup with default, the model of `dict.get(key, d)`. -/
def lookupD (m : List (String × Rat)) (k : String) (d : Rat) : Rat :=
  match lookupTable m k with
  | some v => v
  | none => d

/-- Set a key in an association list, Python-dict style: overwrite in place
if the key exists, else append. -/
def dictSet {α : Type} : List (String × α) → String → α → List (String × α)
  | [], k, v => [(k, v)]
  | p :: rest, k, v => if p.1 = k then (k, v) :: rest else p :: dictSet rest k v

/-- Substring test, the model of Python `needle in hay`. -/
def strContains (hay needle : String) : Bool :=
  go hay.toList needle.toList
where
  go : List Char → List Char → Bool
    | _, [] => true
    | [], _ :: _ => false
    | c :: cs, n => if List.isPrefixOf n (c :: cs) then true else go cs n

/-!
String primitives.  The embedding implements Python's str operations by
structural recursion over character lists (entering and leaving `String`
through `String.toList`/`String.mk`), so that every concrete run of the
model is evaluable inside the logic.
-/

/-- Split a character list at every occurrence of the separator character,
the model of Python `str.split(sep)` for the single-character separators
the source uses (tab, newline, colon, semicolon, equals). -/
def splitChar (c : Char) : List Char → List (List Char)
  | [] => [[]]
  | x :: xs =>
    match splitChar c xs with
    | [] => [[x]]
    | h :: t => if x = c then [] :: h :: t else (x :: h) :: t

/-- String-level split on a single-character separator. -/
def strSplit (s : String) (c : Char) : List String :=
  (splitChar c s.toList).map String.mk

/-- Strip leading and trailing whitespace, the model of `str.strip()`. -/
def strTrim (s : String) : String :=
  String.mk (((s.toList.dropWhile Char.isWhitespace).reverse.dropWhile
    Char.isWhitespace).reverse)

/-- Uppercase every character, the model of `str.upper()`. -/
def strUpper (s : String) : String :=
  String.mk (s.toList.map Char.toUpper)

/-- Literal-prefix test, the model of `str.startswith(pat)`. -/
def strStartsWith (s pat : String) : Bool :=
  List.isPrefixOf pat.toList s.toList

/-- Numeric value of a digit string. -/
def digitsVal (ds : List Char) : Nat :=
  ds.foldl (fun n c => 10 * n + (c.toNat - 48)) 0

/-- Python `int(s)` restricted to the strings that reach it in the source:
defined exactly on nonempty strings of decimal digits; `none` is the
ValueError int() raises on every other string (including digit characters
such as "²" that are not decimal digits). -/
def strToNat (s : String) : Option Nat :=
  if s.toList ≠ [] ∧ s.toList.all Char.isDigit then some (digitsVal s.toList)
  else none

-- ━━━━━━━━━━━━━━━━━━━━━━━━━━━━━━━━━━━━━━━━━━━━━━━━━━━━━━━━━━━━━━━━
-- risk_engine.py : knowledge tables
-- ━━━━━━━━━━━━━━━━━━━━━━━━━━━━━━━━━━━━━━━━━━━━━━━━━━━━━━━━━━━━━━━━

/-- One entry of KNOWN_VARIANTS in risk_engine.py. -/
structure KnownVariant where
  gene : String
  star : String
  effect : String
  desc : String
deriving DecidableEq

/-- KNOWN_VARIANTS from risk_engine.py, in source order (Python dict
insertion order). -/
def KNOWN_VARIANTS : List (String × KnownVariant) := [
  ("rs3892097",  ⟨"CYP2D6", "*4", "no_function", "Splicing defect; most common null allele in Europeans"⟩),
  ("rs5030655",  ⟨"CYP2D6", "*6", "no_function", "Frameshift deletion"⟩),
  ("rs1065852",  ⟨"CYP2D6", "*10", "decreased_function", "Pro34Ser; common in Asians"⟩),
  ("rs16947",    ⟨"CYP2D6", "*2", "normal", "Normal function"⟩),
  ("rs1135840",  ⟨"CYP2D6", "*2B", "normal", "Ser486Thr; normal function"⟩),
  ("rs28371725", ⟨"CYP2D6", "*41", "decreased_function", "Reduced splicing"⟩),
  ("rs5030656",  ⟨"CYP2D6", "*9", "decreased_function", "Lys281del"⟩),
  ("rs28371706", ⟨"CYP2D6", "*17", "decreased_function", "Thr107Ile; common in Africans"⟩),
  ("rs4244285",  ⟨"CYP2C19", "*2", "no_function", "Splicing defect; most common LOF"⟩),
  ("rs4986893",  ⟨"CYP2C19", "*3", "no_function", "Premature stop codon"⟩),
  ("rs12248560", ⟨"CYP2C19", "*17", "increased_function", "Enhanced promoter; ultra-rapid"⟩),
  ("rs28399504", ⟨"CYP2C19", "*4", "no_function", "Rare LOF allele"⟩),
  ("rs56337013", ⟨"CYP2C19", "*5", "no_function", "Arg433Trp"⟩),
  ("rs72552267", ⟨"CYP2C19", "*6", "no_function", "Arg132Gln"⟩),
  ("rs72558186", ⟨"CYP2C19", "*7", "no_function", "Splicing defect"⟩),
  ("rs41291556", ⟨"CYP2C19", "*8", "no_function", "Trp120Arg"⟩),
  ("rs1799853",  ⟨"CYP2C9", "*2", "decreased_function", "Arg144Cys; ~30% reduced warfarin metabolism"⟩),
  ("rs1057910",  ⟨"CYP2C9", "*3", "decreased_function", "Ile359Leu; ~80% reduced warfarin metabolism"⟩),
  ("rs28371686", ⟨"CYP2C9", "*5", "decreased_function", "Asp360Glu"⟩),
  ("rs9332131",  ⟨"CYP2C9", "*6", "no_function", "Frameshift; LOF"⟩),
  ("rs7900194",  ⟨"CYP2C9", "*8", "decreased_function", "Arg150His; common in African Americans"⟩),
  ("rs2256871",  ⟨"CYP2C9", "*9", "decreased_function", "His251Arg"⟩),
  ("rs28371685", ⟨"CYP2C9", "*11", "decreased_function", "Arg335Trp"⟩),
  ("rs4149056",  ⟨"SLCO1B1", "*5", "decreased_function", "Val174Ala; impaired statin uptake"⟩),
  ("rs2306283",  ⟨"SLCO1B1", "*1B", "normal", "Asn130Asp; normal function"⟩),
  ("rs4149015",  ⟨"SLCO1B1", "*1A", "normal", "Reference allele"⟩),
  ("rs11045819", ⟨"SLCO1B1", "*14", "decreased_function", "Pro155Thr"⟩),
  ("rs1800460",  ⟨"TPMT", "*3B", "no_function", "Ala154Thr; non-functional"⟩),
  ("rs1142345",  ⟨"TPMT", "*3C", "no_function", "Tyr240Cys; most common globally"⟩),
  ("rs1800462",  ⟨"TPMT", "*2", "no_function", "Ala80Pro; non-functional"⟩),
  ("rs1800584",  ⟨"TPMT", "*4", "no_function", "Rare non-functional"⟩),
  ("rs3918290",  ⟨"DPYD", "*2A", "no_function", "IVS14+1G>A; exon 14 skipping"⟩),
  ("rs67376798", ⟨"DPYD", "*13", "decreased_function", "Ile560Ser; ~50% reduced DPD"⟩),
  ("rs55886062", ⟨"DPYD", "c.1679T>G", "no_function", "Complete DPD loss"⟩),
  ("rs75017182", ⟨"DPYD", "c.1129-5923C>G", "decreased_function", "HapB3 intronic"⟩),
  ("rs56038477", ⟨"DPYD", "c.1129-5923C>G_tag", "decreased_function", "HapB3 tag SNP"⟩)]

/-- TARGET_GENES from risk_engine.py. -/
def TARGET_GENES : List String :=
  ["CYP2D6", "CYP2C19", "CYP2C9", "SLCO1B1", "TPMT", "DPYD"]

/-- One entry of DRUG_GENE_MAP in risk_engine.py. -/
structure DrugInfo where
  gene : String
  pathway : String
  drug_class : String
deriving DecidableEq

/-- DRUG_GENE_MAP from risk_engine.py. -/
def DRUG_GENE_MAP : List (String × DrugInfo) := [
  ("CODEINE", ⟨"CYP2D6", "CYP2D6 O-demethylates codeine to morphine. URMs produce excess morphine; PMs get no effect.", "Opioid analgesic"⟩),
  ("WARFARIN", ⟨"CYP2C9", "CYP2C9 metabolizes S-warfarin. Reduced function → elevated levels → bleeding risk.", "Anticoagulant"⟩),
  ("CLOPIDOGREL", ⟨"CYP2C19", "CYP2C19 bioactivates the prodrug. PMs cannot activate → treatment failure.", "Antiplatelet"⟩),
  ("SIMVASTATIN", ⟨"SLCO1B1", "SLCO1B1 mediates hepatic uptake. Decreased function → elevated plasma → myopathy.", "Statin"⟩),
  ("AZATHIOPRINE", ⟨"TPMT", "TPMT methylates thiopurines. Deficiency → toxic TGN accumulation → myelosuppression.", "Immunosuppressant"⟩),
  ("FLUOROURACIL", ⟨"DPYD", "DPD catabolizes >80% of 5-FU. Deficiency → drug accumulation → fatal toxicity.", "Antineoplastic"⟩)]

/-- DRUG_ALIASES from risk_engine.py. -/
def DRUG_ALIASES : List (String × String) := [
  ("5-FU", "FLUOROURACIL"), ("5-FLUOROURACIL", "FLUOROURACIL"),
  ("CAPECITABINE", "FLUOROURACIL"),
  ("6-MP", "AZATHIOPRINE"), ("MERCAPTOPURINE", "AZATHIOPRINE"),
  ("PLAVIX", "CLOPIDOGREL"), ("COUMADIN", "WARFARIN"), ("ZOCOR", "SIMVASTATIN")]

/-- GAIN_OF_FUNCTION from risk_engine.py. -/
def GAIN_OF_FUNCTION : List String := ["*17"]

/-- get_allele_activity from risk_engine.py: gene-specific activity score
tables, each keyed by star-allele label, with every miss defaulting to 1.0
(the final branch is the fallback for unknown genes). -/
def get_allele_activity (star gene : String) : Rat :=
  if gene = "CYP2D6" then
    lookupD [("*1", 1), ("*2", 1), ("*2B", 1), ("*4", 0), ("*6", 0),
             ("*9", 0.5), ("*10", 0.25), ("*17", 0.5), ("*41", 0.5)] star 1
  else if gene = "CYP2C19" then
    lookupD [("*1", 1), ("*2", 0), ("*3", 0), ("*4", 0), ("*5", 0),
             ("*6", 0), ("*7", 0), ("*8", 0), ("*17", 1.5)] star 1
  else if gene = "CYP2C9" then
    lookupD [("*1", 1), ("*2", 0.5), ("*3", 0.25), ("*5", 0), ("*6", 0),
             ("*8", 0.5), ("*9", 0.5), ("*11", 0.5)] star 1
  else if gene = "SLCO1B1" then
    lookupD [("*1", 1), ("*1A", 1), ("*1B", 1), ("*5", 0), ("*14", 0.5)] star 1
  else if gene = "TPMT" then
    lookupD [("*1", 1), ("*2", 0), ("*3B", 0), ("*3C", 0), ("*4", 0)] star 1
  else if gene = "DPYD" then
    lookupD [("*1", 1), ("*2A", 0), ("*13", 0.5), ("c.1679T>G", 0),
             ("c.1129-5923C>G", 0.5), ("c.1129-5923C>G_tag", 0.5)] star 1
  else 1

/-- The branch structure of determine_phenotype in risk_engine.py, on the
summed activity score; `gof` is the Python test
`allele1 in GAIN_OF_FUNCTION or allele2 in GAIN_OF_FUNCTION`. -/
def classify_band (gene : String) (total : Rat) (gof : Bool) : String :=
  if gene = "TPMT" ∨ gene = "DPYD" then
    if total = 0 then "PM" else if total ≤ 1 then "IM" else "NM"
  else if gene = "SLCO1B1" then
    if total = 0 then "PM" else if total < 2 then "IM" else "NM"
  else
    if total = 0 then "PM"
    else if total < 1 then "IM"
    else if total ≤ 2 then
      if gof ∧ gene = "CYP2C19" then
        if 2.5 ≤ total then "RM" else "NM"
      else "NM"
    else if total ≤ 2.5 then "RM"
    else "URM"

/-- determine_phenotype from risk_engine.py. -/
def determine_phenotype (allele1 allele2 gene : String) : String :=
  classify_band gene
    (get_allele_activity allele1 gene + get_allele_activity allele2 gene)
    (GAIN_OF_FUNCTION.contains allele1 || GAIN_OF_FUNCTION.contains allele2)

-- ━━━━━━━━━━━━━━━━━━━━━━━━━━━━━━━━━━━━━━━━━━━━━━━━━━━━━━━━━━━━━━━━
-- risk_engine.py : risk matrix, clinical recommendations, assess_risk
-- ━━━━━━━━━━━━━━━━━━━━━━━━━━━━━━━━━━━━━━━━━━━━━━━━━━━━━━━━━━━━━━━━

/-- One entry of RISK_MATRIX in risk_engine.py. -/
structure MatrixEntry where
  risk_label : String
  severity : String
  confidence : Rat
deriving DecidableEq

/-- RISK_MATRIX from risk_engine.py. -/
def RISK_MATRIX : List (String × List (String × MatrixEntry)) := [
  ("CODEINE", [
    ("URM", ⟨"Toxic", "critical", 0.95⟩),
    ("RM",  ⟨"Toxic", "high", 0.88⟩),
    ("NM",  ⟨"Safe", "none", 0.92⟩),
    ("IM",  ⟨"Ineffective", "moderate", 0.85⟩),
    ("PM",  ⟨"Ineffective", "high", 0.95⟩)]),
  ("WARFARIN", [
    ("URM", ⟨"Adjust Dosage", "low", 0.80⟩),
    ("RM",  ⟨"Adjust Dosage", "low", 0.80⟩),
    ("NM",  ⟨"Safe", "none", 0.90⟩),
    ("IM",  ⟨"Adjust Dosage", "high", 0.92⟩),
    ("PM",  ⟨"Toxic", "critical", 0.95⟩)]),
  ("CLOPIDOGREL", [
    ("URM", ⟨"Safe", "none", 0.85⟩),
    ("RM",  ⟨"Safe", "none", 0.88⟩),
    ("NM",  ⟨"Safe", "none", 0.92⟩),
    ("IM",  ⟨"Adjust Dosage", "moderate", 0.88⟩),
    ("PM",  ⟨"Ineffective", "critical", 0.95⟩)]),
  ("SIMVASTATIN", [
    ("URM", ⟨"Safe", "none", 0.80⟩),
    ("RM",  ⟨"Safe", "none", 0.85⟩),
    ("NM",  ⟨"Safe", "none", 0.92⟩),
    ("IM",  ⟨"Adjust Dosage", "moderate", 0.88⟩),
    ("PM",  ⟨"Toxic", "high", 0.92⟩)]),
  ("AZATHIOPRINE", [
    ("URM", ⟨"Safe", "none", 0.80⟩),
    ("RM",  ⟨"Safe", "none", 0.85⟩),
    ("NM",  ⟨"Safe", "none", 0.92⟩),
    ("IM",  ⟨"Adjust Dosage", "high", 0.90⟩),
    ("PM",  ⟨"Toxic", "critical", 0.97⟩)]),
  ("FLUOROURACIL", [
    ("URM", ⟨"Safe", "none", 0.80⟩),
    ("RM",  ⟨"Safe", "none", 0.85⟩),
    ("NM",  ⟨"Safe", "none", 0.92⟩),
    ("IM",  ⟨"Adjust Dosage", "high", 0.90⟩),
    ("PM",  ⟨"Toxic", "critical", 0.97⟩)])]

/-- One entry of CLINICAL_RECS in risk_engine.py. -/
structure RecEntry where
  dosing : String
  alternatives : List String
  monitoring : List String
  cpic_ref : String
  urgency : String
deriving DecidableEq

/-- CLINICAL_RECS from risk_engine.py (CPIC recommendation table). -/
def CLINICAL_RECS : List (String × List (String × RecEntry)) := [
  ("CODEINE", [
    ("URM", ⟨"AVOID codeine. Ultra-rapid CYP2D6 metabolism → excess morphine → respiratory depression risk.", ["Morphine (with caution)", "Non-opioid analgesics (NSAIDs, acetaminophen)"], ["Respiratory rate", "Sedation level", "O2 saturation"], "CPIC Guideline for CYP2D6 and Codeine Therapy (2019)", "emergent"⟩),
    ("RM",  ⟨"AVOID codeine. Rapid metabolism may cause excess morphine.", ["Morphine (dose-adjusted)", "Non-opioid analgesics"], ["Respiratory rate", "Sedation"], "CPIC Guideline for CYP2D6 and Codeine Therapy (2019)", "urgent"⟩),
    ("NM",  ⟨"Use codeine at standard dose. Normal CYP2D6 metabolism.", [], ["Pain assessment", "Adverse effects"], "CPIC Guideline for CYP2D6 and Codeine Therapy (2019)", "routine"⟩),
    ("IM",  ⟨"Reduced efficacy expected. Consider alternative analgesic.", ["Morphine", "Hydromorphone", "Non-opioid analgesics"], ["Pain control adequacy"], "CPIC Guideline for CYP2D6 and Codeine Therapy (2019)", "soon"⟩),
    ("PM",  ⟨"AVOID codeine. PMs cannot convert codeine to morphine — no analgesic effect.", ["Morphine", "Hydromorphone", "Non-opioid analgesics"], ["Pain control with alternative"], "CPIC Guideline for CYP2D6 and Codeine Therapy (2019)", "urgent"⟩)]),
  ("WARFARIN", [
    ("NM",  ⟨"Standard dose (5 mg/day). Adjust per INR.", [], ["INR (2.0–3.0)", "Bleeding signs"], "CPIC Guideline for Warfarin Dosing (2017)", "routine"⟩),
    ("IM",  ⟨"Reduce dose 25–50%. Intermediate CYP2C9 metabolism.", ["Apixaban", "Rivaroxaban"], ["INR (frequent)", "Bleeding", "Hemoglobin"], "CPIC Guideline for Warfarin Dosing (2017)", "soon"⟩),
    ("PM",  ⟨"Reduce dose 50–80%. HIGH BLEEDING RISK. Consider DOAC.", ["Apixaban", "Rivaroxaban", "Edoxaban"], ["INR 2–3x/week", "CBC", "Bleeding signs"], "CPIC Guideline for Warfarin Dosing (2017)", "urgent"⟩),
    ("RM",  ⟨"May need higher dose. INR-guided titration.", [], ["INR"], "CPIC Guideline for Warfarin Dosing (2017)", "routine"⟩),
    ("URM", ⟨"May need higher dose. INR-guided titration.", [], ["INR"], "CPIC Guideline for Warfarin Dosing (2017)", "routine"⟩)]),
  ("CLOPIDOGREL", [
    ("NM",  ⟨"Standard dose (75 mg/day). Normal bioactivation.", [], ["Platelet function", "CV events"], "CPIC Guideline for CYP2C19 and Clopidogrel (2022)", "routine"⟩),
    ("RM",  ⟨"Standard dose. Adequate activation.", [], ["CV monitoring"], "CPIC Guideline for CYP2C19 and Clopidogrel (2022)", "routine"⟩),
    ("URM", ⟨"Standard dose. Slightly increased bleeding risk possible.", [], ["Bleeding signs"], "CPIC Guideline for CYP2C19 and Clopidogrel (2022)", "routine"⟩),
    ("IM",  ⟨"Reduced activation. Consider alternative or double dose with monitoring.", ["Prasugrel", "Ticagrelor"], ["Platelet function", "CV events"], "CPIC Guideline for CYP2C19 and Clopidogrel (2022)", "soon"⟩),
    ("PM",  ⟨"AVOID clopidogrel. Cannot activate prodrug — HIGH treatment failure risk.", ["Prasugrel", "Ticagrelor"], ["Platelet function", "Stent thrombosis"], "CPIC Guideline for CYP2C19 and Clopidogrel (2022)", "emergent"⟩)]),
  ("SIMVASTATIN", [
    ("NM",  ⟨"Standard dose. Normal SLCO1B1 function.", [], ["LDL-C", "LFTs", "Muscle symptoms"], "CPIC Guideline for SLCO1B1 and Statins (2022)", "routine"⟩),
    ("RM",  ⟨"Standard dose.", [], ["LDL-C", "Muscle symptoms"], "CPIC Guideline for SLCO1B1 and Statins (2022)", "routine"⟩),
    ("URM", ⟨"Standard dose.", [], ["LDL-C"], "CPIC Guideline for SLCO1B1 and Statins (2022)", "routine"⟩),
    ("IM",  ⟨"Limit to ≤20 mg/day. Increased myopathy risk.", ["Pravastatin", "Rosuvastatin"], ["CK levels", "Muscle pain", "LDL-C"], "CPIC Guideline for SLCO1B1 and Statins (2022)", "soon"⟩),
    ("PM",  ⟨"AVOID simvastatin. High myopathy/rhabdomyolysis risk.", ["Pravastatin", "Rosuvastatin", "Fluvastatin"], ["CK", "Renal function", "Muscle symptoms"], "CPIC Guideline for SLCO1B1 and Statins (2022)", "urgent"⟩)]),
  ("AZATHIOPRINE", [
    ("NM",  ⟨"Standard dose (2–3 mg/kg/day). Normal TPMT.", [], ["CBC", "LFTs"], "CPIC Guideline for TPMT and Thiopurines (2018)", "routine"⟩),
    ("RM",  ⟨"Standard dose.", [], ["CBC", "LFTs"], "CPIC Guideline for TPMT and Thiopurines (2018)", "routine"⟩),
    ("URM", ⟨"May need higher dose. Monitor response.", [], ["TGN levels", "CBC"], "CPIC Guideline for TPMT and Thiopurines (2018)", "routine"⟩),
    ("IM",  ⟨"Reduce dose 30–80%. Start 0.5–1.5 mg/kg/day.", ["Mycophenolate mofetil"], ["CBC weekly then biweekly", "LFTs", "TGN levels"], "CPIC Guideline for TPMT and Thiopurines (2018)", "urgent"⟩),
    ("PM",  ⟨"AVOID or reduce 90%. LIFE-THREATENING myelosuppression risk.", ["Mycophenolate mofetil"], ["CBC 2–3x/week", "ANC", "TGN levels"], "CPIC Guideline for TPMT and Thiopurines (2018)", "emergent"⟩)]),
  ("FLUOROURACIL", [
    ("NM",  ⟨"Standard dose. Normal DPD activity.", [], ["CBC", "Mucositis", "Hand-foot syndrome"], "CPIC Guideline for DPYD and Fluoropyrimidines (2017)", "routine"⟩),
    ("RM",  ⟨"Standard dose.", [], ["CBC", "Toxicity"], "CPIC Guideline for DPYD and Fluoropyrimidines (2017)", "routine"⟩),
    ("URM", ⟨"Standard dose. May have reduced efficacy.", [], ["Treatment response", "CBC"], "CPIC Guideline for DPYD and Fluoropyrimidines (2017)", "routine"⟩),
    ("IM",  ⟨"Reduce dose 25–50%. Intermediate DPD activity.", ["Dose-reduced capecitabine"], ["CBC 2x/week", "Mucositis", "Diarrhea", "Neurotoxicity"], "CPIC Guideline for DPYD and Fluoropyrimidines (2017)", "urgent"⟩),
    ("PM",  ⟨"AVOID all fluoropyrimidines. Complete DPD deficiency → FATAL toxicity.", ["Non-fluoropyrimidine chemo (consult oncology)"], ["If given: emergent CBC, renal, electrolytes, ICU"], "CPIC Guideline for DPYD and Fluoropyrimidines (2017)", "emergent"⟩)])]

/-- resolve_drug from risk_engine.py: upper-case, strip, then alias table. -/
def resolve_drug (drug : String) : String :=
  let d := strTrim (strUpper drug)
  (lookupTable DRUG_ALIASES d).getD d

/-- The risk_assessment sub-dict of an assess_risk result. -/
structure RiskAssessment where
  risk_label : String
  confidence_score : Rat
  severity : String
deriving DecidableEq

/-- The clinical_recommendation sub-dict of an assess_risk result. -/
structure ClinicalRecommendation where
  dosing_recommendation : String
  alternative_drugs : List String
  monitoring_parameters : List String
  cpic_guideline_reference : String
  urgency : String
deriving DecidableEq

/-- A full assess_risk result. -/
structure RiskResult where
  risk_assessment : RiskAssessment
  clinical_recommendation : ClinicalRecommendation
deriving DecidableEq

/-- The unknown-drug default of assess_risk (risk_engine.py lines 326-334):
canonical drug absent from RISK_MATRIX. -/
def unknownDrugResult (drug : String) : RiskResult :=
  { risk_assessment :=
      { risk_label := "Unknown", confidence_score := 0.0, severity := "low" },
    clinical_recommendation :=
      { dosing_recommendation := "No pharmacogenomic data for " ++ drug ++ ".",
        alternative_drugs := [], monitoring_parameters := [],
        cpic_guideline_reference := "", urgency := "routine" } }

/-- The unknown-phenotype default of assess_risk (risk_engine.py lines
336-345): drug known, phenotype absent from its matrix row. -/
def unknownPhenoResult (drug : String) : RiskResult :=
  { risk_assessment :=
      { risk_label := "Unknown", confidence_score := 0.5, severity := "moderate" },
    clinical_recommendation :=
      { dosing_recommendation :=
          "Phenotype undetermined. Use " ++ drug ++ " with standard monitoring.",
        alternative_drugs := [], monitoring_parameters := ["Standard monitoring"],
        cpic_guideline_reference := "", urgency := "soon" } }

/-- The table-hit result of assess_risk (risk_engine.py lines 347-364):
matrix entry plus recommendation entry, each recommendation field defaulting
generically when the recommendation table lacks the key (Python
`rec.get(field, default)` on a possibly-empty dict). -/
def tableHitResult (risk : MatrixEntry) (recEntry : Option RecEntry) : RiskResult :=
  { risk_assessment :=
      { risk_label := risk.risk_label,
        confidence_score := risk.confidence,
        severity := risk.severity },
    clinical_recommendation :=
      { dosing_recommendation :=
          (recEntry.map (·.dosing)).getD "Follow standard prescribing info.",
        alternative_drugs := (recEntry.map (·.alternatives)).getD [],
        monitoring_parameters := (recEntry.map (·.monitoring)).getD [],
        cpic_guideline_reference := (recEntry.map (·.cpic_ref)).getD "",
        urgency := (recEntry.map (·.urgency)).getD "routine" } }

/-- The static-fallback segment of assess_risk (risk_engine.py lines
325-364), as an early-return segment: `some r` means the segment executed a
`return r`.  Both external sources (CPIC API, Supabase) are taken to yield
nothing, which is the hypothesis of the claims about this path; the segment
itself is the pure remainder of the function. -/
def staticSegment (drug phenotype : String) : Option RiskResult :=
  let drug_upper := resolve_drug drug
  match lookupTable RISK_MATRIX drug_upper with
  | none => some (unknownDrugResult drug)
  | some drugRow =>
    match lookupTable drugRow phenotype with
    | none => some (unknownPhenoResult drug)
    | some risk =>
      some (tableHitResult risk
        ((lookupTable CLINICAL_RECS drug_upper).bind (fun t => lookupTable t phenotype)))

/-- The phenotype-string inference branches of assess_risk (risk_engine.py
lines 366-411), the code that sits after the unconditional table-lookup
return, ending in the ultimate fallback. -/
def inferenceSegment (drug phenotype gene : String) : RiskResult :=
  if phenotype = "PM" ∨ phenotype = "Poor Metabolizer" then
    { risk_assessment :=
        { risk_label := "Toxic", confidence_score := 0.7, severity := "high" },
      clinical_recommendation :=
        { dosing_recommendation :=
            "Patient is a Poor Metabolizer for " ++ gene ++ ". High risk of abnormal " ++
              drug ++ " metabolism. Consider alternatives or dose reduction.",
          alternative_drugs := [], monitoring_parameters := ["Close clinical monitoring"],
          cpic_guideline_reference := "Inferred from phenotype", urgency := "urgent" } }
  else if phenotype = "IM" ∨ phenotype = "Intermediate Metabolizer" then
    { risk_assessment :=
        { risk_label := "Adjust Dosage", confidence_score := 0.7, severity := "moderate" },
      clinical_recommendation :=
        { dosing_recommendation :=
            "Patient is an Intermediate Metabolizer for " ++ gene ++
              ". May require dose adjustment for " ++ drug ++ ".",
          alternative_drugs := [], monitoring_parameters := ["Therapeutic response"],
          cpic_guideline_reference := "Inferred from phenotype", urgency := "soon" } }
  else if phenotype = "URM" ∨ phenotype = "RM" ∨ phenotype = "Ultrarapid Metabolizer" ∨
      phenotype = "Rapid Metabolizer" then
    { risk_assessment :=
        { risk_label := "Adjust Dosage", confidence_score := 0.7, severity := "moderate" },
      clinical_recommendation :=
        { dosing_recommendation :=
            "Patient is a Rapid/Ultrarapid Metabolizer for " ++ gene ++
              ". May experience lack of efficacy (if active drug) or toxicity (if prodrug).",
          alternative_drugs := [], monitoring_parameters := ["Therapeutic response"],
          cpic_guideline_reference := "Inferred from phenotype", urgency := "soon" } }
  else if phenotype = "NM" ∨ phenotype = "Normal Metabolizer" then
    { risk_assessment :=
        { risk_label := "Safe", confidence_score := 0.8, severity := "none" },
      clinical_recommendation :=
        { dosing_recommendation :=
            "Patient is a Normal Metabolizer for " ++ gene ++ ". Standard dosing for " ++
              drug ++ " is appropriate.",
          alternative_drugs := [], monitoring_parameters := [],
          cpic_guideline_reference := "Inferred from phenotype", urgency := "routine" } }
  else
    { risk_assessment :=
        { risk_label := "Unknown", confidence_score := 0.0, severity := "low" },
      clinical_recommendation :=
        { dosing_recommendation :=
            "No specific pharmacogenomic data found for " ++ drug ++ ".",
          alternative_drugs := [], monitoring_parameters := [],
          cpic_guideline_reference := "", urgency := "routine" } }

/-- assess_risk from risk_engine.py with both external sources (CPIC API,
Supabase) yielding nothing: the body runs the static-fallback segment and,
only if that segment were to fall through without returning, the
phenotype-inference code after it. -/
def assess_risk (drug phenotype gene : String) : RiskResult :=
  match staticSegment drug phenotype with
  | some r => r
  | none => inferenceSegment drug phenotype gene

-- ━━━━━━━━━━━━━━━━━━━━━━━━━━━━━━━━━━━━━━━━━━━━━━━━━━━━━━━━━━━━━━━━
-- vcf_parser.py : field helpers
-- ━━━━━━━━━━━━━━━━━━━━━━━━━━━━━━━━━━━━━━━━━━━━━━━━━━━━━━━━━━━━━━━━

/-- Exponent part of a decimal literal: optional sign, then digits that must
consume the rest of the input. -/
def parseExp (r : List Char) : Bool × Int :=
  let (eneg, r2) : Bool × List Char :=
    match r with
    | '-' :: t => (true, t)
    | '+' :: t => (false, t)
    | t => (false, t)
  let ds := r2.takeWhile Char.isDigit
  if ds ≠ [] ∧ r2.drop ds.length = [] then
    (true, if eneg then -(digitsVal ds : Int) else (digitsVal ds : Int))
  else (false, 0)

/-- Exact-rational model of Python float() on the decimal/scientific
literals a QUAL column carries: optional sign, digits, optional fraction,
optional exponent; anything else is a parse failure (ValueError). -/
def parseDecimal (s : String) : Option Rat :=
  let cs := s.toList
  let (neg, cs2) : Bool × List Char :=
    match cs with
    | '-' :: r => (true, r)
    | '+' :: r => (false, r)
    | r => (false, r)
  let ip := cs2.takeWhile Char.isDigit
  let rest := cs2.drop ip.length
  let (fp, rest2) : List Char × List Char :=
    match rest with
    | '.' :: r => (r.takeWhile Char.isDigit, r.drop (r.takeWhile Char.isDigit).length)
    | r => ([], r)
  if ip = [] ∧ fp = [] then none
  else
    let (eok, ex) : Bool × Int :=
      match rest2 with
      | [] => (true, 0)
      | 'e' :: r => parseExp r
      | 'E' :: r => parseExp r
      | _ => (false, 0)
    if eok then
      let base : Rat :=
        ((digitsVal ip * 10 ^ fp.length + digitsVal fp : Nat) : Rat) / (10 ^ fp.length : Nat)
      let scaled : Rat :=
        if 0 ≤ ex then base * (10 ^ ex.toNat : Nat) else base / (10 ^ (-ex).toNat : Nat)
      some (if neg then -scaled else scaled)
    else none

/-- Quality parsing inside parse_vcf (vcf_parser.py lines 146-149):
"." means missing, an unparseable value falls back to 0.0. -/
def parseQuality (qual : String) : Rat :=
  if qual = "." then 0 else (parseDecimal qual).getD 0

/-- parse_info_field from vcf_parser.py: semicolon-separated key=value pairs
(split on the first "="), bare flags mapping to "true"; "" and "." give an
empty mapping. -/
def parse_info_field (info : String) : List (String × String) :=
  if info = "" ∨ info = "." then []
  else
    (strSplit info ';').foldl
      (fun m item =>
        if strContains item "=" then
          let parts := strSplit item '='
          dictSet m (strTrim (parts.headD ""))
            (strTrim (String.intercalate "=" parts.tail))
        else dictSet m (strTrim item) "true") []

/-- extract_genotype from vcf_parser.py: locate the GT key in the FORMAT
column and read the matching SAMPLE column entry. -/
def extract_genotype (format_field sample_field : String) : String :=
  if format_field = "" ∨ sample_field = "" then ""
  else
    let keys := strSplit format_field ':'
    let values := strSplit sample_field ':'
    match keys.findIdx? (· == "GT") with
    | some idx => if idx < values.length then values.getD idx "" else ""
    | none => ""

-- ━━━━━━━━━━━━━━━━━━━━━━━━━━━━━━━━━━━━━━━━━━━━━━━━━━━━━━━━━━━━━━━━
-- vcf_parser.py : parse_vcf
-- ━━━━━━━━━━━━━━━━━━━━━━━━━━━━━━━━━━━━━━━━━━━━━━━━━━━━━━━━━━━━━━━━

/-- One pgx_variants entry built by parse_vcf. -/
structure Variant where
  rsid : String
  gene : String
  chromosome : String
  position : Nat
  ref : String
  alt : String
  star : String
  genotype : String
  effect : String
  quality : Rat
  description : String
deriving DecidableEq

/-- The per-row accumulating part of a parse result: total count, pgx
variant list, gene grouping. -/
structure RowState where
  total_variants : Nat
  pgx_variants : List Variant
  gene_variants : List (String × List Variant)
deriving DecidableEq

/-- `dict.setdefault(gene, []).append(v)` on the gene grouping. -/
def addGeneVariant : List (String × List Variant) → String → Variant →
    List (String × List Variant)
  | [], g, v => [(g, [v])]
  | p :: rest, g, v =>
    if p.1 = g then (p.1, p.2 ++ [v]) :: rest else p :: addGeneVariant rest g v

/-- The genotype a data row yields (vcf_parser.py lines 154-157): extracted
from columns 8/9 only when the header announced FORMAT and SAMPLE columns
and the row has them. -/
def genotype_of_row (hasFormat hasSample : Bool) (fields : List String) : String :=
  if hasFormat ∧ hasSample ∧ 9 < fields.length then
    extract_genotype (fields.getD 8 "") (fields.getD 9 "")
  else ""

/-- The body of the per-data-line loop of parse_vcf (vcf_parser.py lines
129-242): skip rows with fewer than 5 tab-separated fields, count the row,
drop homozygous-reference genotypes, then identify a pharmacogenomic
variant by the three strategies (INFO GENE tag, rsID catalog fallback,
GENE tag without catalog match).  The position conversion
`(strToNat pos).getD 0` agrees with the source's
`int(pos) if pos.isdigit() else 0` on every row whose position field is
either a decimal-digit string or not a digit string at all; on the digit
characters that isdigit() accepts but int() rejects the source raises
instead — that exception path is modeled separately by processRowE. -/
def processRow (hasFormat hasSample : Bool) (st : RowState) (line : String) :
    RowState :=
  let fields := strSplit line '\t'
  if fields.length < 5 then st
  else
    let st1 : RowState := { st with total_variants := st.total_variants + 1 }
    let chrom := strTrim (fields.getD 0 "")
    let pos := strTrim (fields.getD 1 "")
    let rsid := if 2 < fields.length then strTrim (fields.getD 2 "") else "."
    let ref := if 3 < fields.length then strTrim (fields.getD 3 "") else ""
    let alt := if 4 < fields.length then strTrim (fields.getD 4 "") else ""
    let qual := if 5 < fields.length then strTrim (fields.getD 5 "") else "0"
    let info_str := if 7 < fields.length then strTrim (fields.getD 7 "") else ""
    let quality := parseQuality qual
    let info := parse_info_field info_str
    let genotype := genotype_of_row hasFormat hasSample fields
    if genotype = "0/0" ∨ genotype = "0|0" then st1
    else
      let gene := (lookupTable info "GENE").getD ""
      let star := (lookupTable info "STAR").getD ""
      let rs_from_info := (lookupTable info "RS").getD ""
      if gene ≠ "" ∧ gene ∈ TARGET_GENES then
        let lookup_rsid := if rsid ≠ "." then rsid else rs_from_info
        let ed : String × String :=
          match lookupTable KNOWN_VARIANTS lookup_rsid with
          | some kv => (kv.effect, kv.desc)
          | none =>
            if star ≠ "" then
              match (KNOWN_VARIANTS.map Prod.snd).find?
                  (fun v => v.gene == gene && v.star == star) with
              | some v => (v.effect, v.desc)
              | none => ("", "")
            else ("", "")
        let effect := if ed.1 = "" then "unknown" else ed.1
        let v : Variant :=
          ⟨if rsid ≠ "." then rsid else rs_from_info, gene, chrom,
           (strToNat pos).getD 0, ref, alt, star, genotype, effect, quality, ed.2⟩
        { st1 with pgx_variants := st1.pgx_variants ++ [v],
                   gene_variants := addGeneVariant st1.gene_variants gene v }
      else
        let lookup_id := if rsid ≠ "." then rsid else rs_from_info
        match (if lookup_id ≠ "" then lookupTable KNOWN_VARIANTS lookup_id else none) with
        | some known =>
          let v : Variant :=
            ⟨lookup_id, known.gene, chrom, (strToNat pos).getD 0, ref, alt,
             known.star, genotype, known.effect, quality, known.desc⟩
          { st1 with pgx_variants := st1.pgx_variants ++ [v],
                     gene_variants := addGeneVariant st1.gene_variants known.gene v }
        | none =>
          if gene ∈ TARGET_GENES then
            let v : Variant :=
              ⟨if rsid ≠ "." then rsid else "unknown", gene, chrom,
               (strToNat pos).getD 0, ref, alt,
               if star ≠ "" then star else "unknown", genotype, "unknown", quality, ""⟩
            { st1 with pgx_variants := st1.pgx_variants ++ [v],
                       gene_variants := addGeneVariant st1.gene_variants gene v }
          else st1

/-- Case-insensitive literal match: consume `pat` (uppercase) from the head
of `cs`, comparing uppercased characters. -/
def dropCI : List Char → List Char → Option (List Char)
  | [], cs => some cs
  | _ :: _, [] => none
  | p :: ps, c :: cs => if c.toUpper = p then dropCI ps cs else none

/-- Match the pattern PATIENT[_-]?ID\s*=\s*(\S+) (case-insensitive) at the
head of `cs`, returning the captured identifier. -/
def matchPatientIdAt (cs : List Char) : Option String :=
  match dropCI ['P', 'A', 'T', 'I', 'E', 'N', 'T'] cs with
  | none => none
  | some r1 =>
    let afterId : Option (List Char) :=
      match r1 with
      | c :: rest =>
        if c = '_' ∨ c = '-' then
          match dropCI ['I', 'D'] rest with
          | some r => some r
          | none => dropCI ['I', 'D'] r1
        else dropCI ['I', 'D'] r1
      | [] => none
    match afterId with
    | none => none
    | some r2 =>
      match r2.dropWhile Char.isWhitespace with
      | '=' :: r4 =>
        let r5 := r4.dropWhile Char.isWhitespace
        let cap := r5.takeWhile (fun c => ¬ c.isWhitespace)
        if cap = [] then none else some (String.mk cap)
      | _ => none

/-- Leftmost match of the PATIENT-ID pattern anywhere in the line, the model
of re.search in vcf_parser.py line 96. -/
def searchPatientId (s : String) : Option String :=
  go s.toList
where
  go : List Char → Option String
    | [] => none
    | c :: cs =>
      match matchPatientIdAt (c :: cs) with
      | some r => some r
      | none => go cs

/-- The line-classification pass of parse_vcf (vcf_parser.py lines 84-105):
fileformat flag, patient id from meta lines, last #CHROM header line, data
lines in order. -/
structure HeaderScan where
  has_fileformat : Bool
  header_line : Option String
  data_lines : List String
  patient_id : String
deriving DecidableEq

/-- Run the line-classification pass over the (already split) lines. -/
def scanLines (lines : List String) : HeaderScan :=
  lines.foldl
    (fun acc line =>
      let stripped := strTrim line
      let acc :=
        if strStartsWith stripped "##fileformat=VCF" then
          { acc with has_fileformat := true }
        else acc
      if strStartsWith stripped "##" then
        if strContains (strUpper stripped) "PATIENT" then
          match searchPatientId stripped with
          | some pid =>
            { acc with patient_id :=
                if strStartsWith (strUpper pid) "PATIENT" then pid
                else "PATIENT_" ++ pid }
          | none => acc
        else acc
      else if strStartsWith stripped "#CHROM" ∨ strStartsWith stripped "#chrom" then
        { acc with header_line := some stripped }
      else if stripped ≠ "" ∧ ¬ strStartsWith stripped "#" then
        { acc with data_lines := acc.data_lines ++ [stripped] }
      else acc)
    ⟨false, none, [], "PATIENT_001"⟩

/-- The line splitting of parse_vcf (vcf_parser.py line 78). -/
def vcfLines (vcf_content : String) : List String :=
  strSplit (strTrim vcf_content) '\n'

/-- Ordered insertion into a sorted list of strings. -/
def insertSorted (s : String) : List String → List String
  | [] => [s]
  | x :: xs => if s ≤ x then s :: x :: xs else x :: insertSorted s xs

/-- Lexicographic string sort, the model of Python sorted() on the gene
keys. -/
def sortStrings (l : List String) : List String :=
  l.foldr insertSorted []

/-- The full parse result of parse_vcf. -/
structure ParseResult where
  patient_id : String
  total_variants : Nat
  pgx_variants : List Variant
  gene_variants : List (String × List Variant)
  genes_found : List String
  errors : List String
  vcf_valid : Bool
deriving DecidableEq

/-- parse_vcf from vcf_parser.py: split and classify lines, bail out (with
vcf_valid = false) only when neither a #CHROM header nor any data line was
found, then fold the row loop over the data lines.  The guard on empty
`lines` mirrors the dead `if not lines` branch of the source (splitting a
string always yields at least one piece, there as here). -/
def parse_vcf (vcf_content : String) : ParseResult :=
  let lines := vcfLines vcf_content
  if lines = [] then
    ⟨"PATIENT_001", 0, [], [], [], ["Empty VCF file"], false⟩
  else
    let scan := scanLines lines
    let errs :=
      if ¬ scan.has_fileformat then ["Warning: Missing ##fileformat=VCF header"]
      else []
    if scan.header_line = none ∧ scan.data_lines = [] then
      ⟨scan.patient_id, 0, [], [], [], errs ++ ["Missing #CHROM header line"], false⟩
    else
      let errs := errs ++
        (if scan.header_line = none then ["Missing #CHROM header line"] else [])
      let fmtSmp : Bool × Bool :=
        match scan.header_line with
        | some h =>
          let cols := strSplit (String.mk (h.toList.dropWhile (· = '#'))) '\t'
          (decide (8 < cols.length), decide (9 < cols.length))
        | none => (false, false)
      let st := scan.data_lines.foldl (processRow fmtSmp.1 fmtSmp.2) ⟨0, [], []⟩
      ⟨scan.patient_id, st.total_variants, st.pgx_variants, st.gene_variants,
       sortStrings (st.gene_variants.map Prod.fst), errs, true⟩

-- ━━━━━━━━━━━━━━━━━━━━━━━━━━━━━━━━━━━━━━━━━━━━━━━━━━━━━━━━━━━━━━━━
-- vcf_parser.py : build_profile_for_drug
-- ━━━━━━━━━━━━━━━━━━━━━━━━━━━━━━━━━━━━━━━━━━━━━━━━━━━━━━━━━━━━━━━━

/-- One detected_variants entry of a drug profile (field renaming performed
by build_profile_for_drug lines 310-323). -/
structure DetectedVariant where
  rsid : String
  gene : String
  chromosome : String
  position : Nat
  ref_allele : String
  alt_allele : String
  star_allele : String
  genotype : String
  functional_effect : String
  quality : Rat
deriving DecidableEq

/-- The result of build_profile_for_drug. -/
structure DrugProfile where
  primary_gene : String
  diplotype : String
  phenotype : String
  detected_variants : List DetectedVariant
deriving DecidableEq

/-- get_drug_gene_info from risk_engine.py, restricted to its always-
available fast path (the hardcoded DRUG_GENE_MAP); the Supabase and CPIC
API sources are external collaborators taken to yield nothing, which is the
hypothesis of the claims about this path.  `none` models the empty dict the
source returns on a complete miss. -/
def get_drug_gene_info (drug : String) : Option DrugInfo :=
  lookupTable DRUG_GENE_MAP (resolve_drug drug)

/-- Order-preserving first-occurrence deduplication, the model of
`list(dict.fromkeys(stars))`. -/
def dedupFirst (l : List String) : List String :=
  l.foldl (fun acc x => if x ∈ acc then acc else acc ++ [x]) []

/-- build_profile_for_drug from vcf_parser.py: resolve the drug to its
gene, default to the homozygous-reference diplotype when no variants were
grouped under that gene, otherwise resolve a diplotype from the star-allele
labels found and classify it. -/
def build_profile_for_drug (parsed : ParseResult) (drug : String) : DrugProfile :=
  let drug_upper := resolve_drug drug
  match get_drug_gene_info drug_upper with
  | none => ⟨"Unknown", "Unknown", "Unknown", []⟩
  | some info =>
    if info.gene = "" then ⟨"Unknown", "Unknown", "Unknown", []⟩
    else
      let gene := info.gene
      let gene_variants := (lookupTable parsed.gene_variants gene).getD []
      if gene_variants = [] then ⟨gene, "*1/*1", "NM", []⟩
      else
        let stars :=
          (gene_variants.filter (fun v => v.star != "" && v.star != "unknown")).map
            (·.star)
        let alleles : String × String :=
          if stars = [] then ("*1", "*1")
          else if stars.length = 1 then
            let gt := ((gene_variants.head?).map (·.genotype)).getD ""
            if gt = "1/1" ∨ gt = "1|1" then (stars.headD "", stars.headD "")
            else ("*1", stars.headD "")
          else
            let unique_stars := dedupFirst stars
            (unique_stars.headD "",
             if 1 < unique_stars.length then unique_stars.getD 1 ""
             else unique_stars.headD "")
        let detected := gene_variants.map (fun v =>
          (⟨v.rsid, v.gene, v.chromosome, v.position, v.ref, v.alt, v.star,
            v.genotype, v.effect, v.quality⟩ : DetectedVariant))
        ⟨gene, alleles.1 ++ "/" ++ alleles.2,
         determine_phenotype alleles.1 alleles.2 gene, detected⟩

-- ━━━━━━━━━━━━━━━━━━━━━━━━━━━━━━━━━━━━━━━━━━━━━━━━━━━━━━━━━━━━━━━━
-- vcf_parser.py : the exception path of the position conversion
-- ━━━━━━━━━━━━━━━━━━━━━━━━━━━━━━━━━━━━━━━━━━━━━━━━━━━━━━━━━━━━━━━━

/-- The superscript and subscript digit characters: the fragment of the
Unicode characters with Numeric_Type = Digit but no decimal value that
this development exercises.  Python str.isdigit() accepts them, while
int() rejects them with a ValueError. -/
def nonDecimalDigitChars : List Char :=
  ['¹', '²', '³', '⁰', '⁴', '⁵', '⁶', '⁷', '⁸', '⁹',
   '₀', '₁', '₂', '₃', '₄', '₅', '₆', '₇', '₈', '₉']

/-- Python str.isdigit(): nonempty and every character a digit — the
decimal digits and also Numeric_Type = Digit characters such as "²"
(modeled on the fragment above). -/
def pyIsDigit (s : String) : Bool :=
  !s.toList.isEmpty &&
    s.toList.all (fun c => c.isDigit || nonDecimalDigitChars.contains c)

/-- The position conversion `int(pos) if pos.isdigit() else 0` of
vcf_parser.py (lines 192, 213, 232) with its exception path made
explicit: isdigit() accepts digit characters that int() rejects, so the
guarded conversion can still raise; `none` models that uncaught
ValueError. -/
def position_of (pos : String) : Option Nat :=
  if pyIsDigit pos then strToNat pos else some 0

/-- The per-data-line loop body of parse_vcf with the exception path of
the position conversion made explicit: identical to processRow except
that building a variant record evaluates position_of, and its `none`
(the uncaught ValueError from `int(pos)`) aborts the whole parse.  Every
other conversion in the loop is guarded in the source (float() by
try/except, the INFO and genotype accesses by length checks), so the
position conversion is the loop's only raising operation. -/
def processRowE (hasFormat hasSample : Bool) (st : RowState) (line : String) :
    Option RowState :=
  let fields := strSplit line '\t'
  if fields.length < 5 then some st
  else
    let st1 : RowState := { st with total_variants := st.total_variants + 1 }
    let chrom := strTrim (fields.getD 0 "")
    let pos := strTrim (fields.getD 1 "")
    let rsid := if 2 < fields.length then strTrim (fields.getD 2 "") else "."
    let ref := if 3 < fields.length then strTrim (fields.getD 3 "") else ""
    let alt := if 4 < fields.length then strTrim (fields.getD 4 "") else ""
    let qual := if 5 < fields.length then strTrim (fields.getD 5 "") else "0"
    let info_str := if 7 < fields.length then strTrim (fields.getD 7 "") else ""
    let quality := parseQuality qual
    let info := parse_info_field info_str
    let genotype := genotype_of_row hasFormat hasSample fields
    if genotype = "0/0" ∨ genotype = "0|0" then some st1
    else
      let gene := (lookupTable info "GENE").getD ""
      let star := (lookupTable info "STAR").getD ""
      let rs_from_info := (lookupTable info "RS").getD ""
      if gene ≠ "" ∧ gene ∈ TARGET_GENES then
        let lookup_rsid := if rsid ≠ "." then rsid else rs_from_info
        let ed : String × String :=
          match lookupTable KNOWN_VARIANTS lookup_rsid with
          | some kv => (kv.effect, kv.desc)
          | none =>
            if star ≠ "" then
              match (KNOWN_VARIANTS.map Prod.snd).find?
                  (fun v => v.gene == gene && v.star == star) with
              | some v => (v.effect, v.desc)
              | none => ("", "")
            else ("", "")
        let effect := if ed.1 = "" then "unknown" else ed.1
        match position_of pos with
        | none => none
        | some p =>
          let v : Variant :=
            ⟨if rsid ≠ "." then rsid else rs_from_info, gene, chrom,
             p, ref, alt, star, genotype, effect, quality, ed.2⟩
          some { st1 with pgx_variants := st1.pgx_variants ++ [v],
                          gene_variants := addGeneVariant st1.gene_variants gene v }
      else
        let lookup_id := if rsid ≠ "." then rsid else rs_from_info
        match (if lookup_id ≠ "" then lookupTable KNOWN_VARIANTS lookup_id else none) with
        | some known =>
          match position_of pos with
          | none => none
          | some p =>
            let v : Variant :=
              ⟨lookup_id, known.gene, chrom, p, ref, alt,
               known.star, genotype, known.effect, quality, known.desc⟩
            some { st1 with pgx_variants := st1.pgx_variants ++ [v],
                            gene_variants :=
                              addGeneVariant st1.gene_variants known.gene v }
        | none =>
          if gene ∈ TARGET_GENES then
            match position_of pos with
            | none => none
            | some p =>
              let v : Variant :=
                ⟨if rsid ≠ "." then rsid else "unknown", gene, chrom,
                 p, ref, alt,
                 if star ≠ "" then star else "unknown", genotype, "unknown",
                 quality, ""⟩
              some { st1 with pgx_variants := st1.pgx_variants ++ [v],
                              gene_variants := addGeneVariant st1.gene_variants gene v }
          else some st1

/-- parse_vcf with the exception path of the position conversion made
explicit: the same line classification and early returns as parse_vcf
(none of which can raise), with the row loop folded through processRowE;
`none` models parse_vcf terminating in an uncaught exception instead of
returning a ParseResult. -/
def parse_vcfE (vcf_content : String) : Option ParseResult :=
  let lines := vcfLines vcf_content
  if lines = [] then
    some ⟨"PATIENT_001", 0, [], [], [], ["Empty VCF file"], false⟩
  else
    let scan := scanLines lines
    let errs :=
      if ¬ scan.has_fileformat then ["Warning: Missing ##fileformat=VCF header"]
      else []
    if scan.header_line = none ∧ scan.data_lines = [] then
      some ⟨scan.patient_id, 0, [], [], [], errs ++ ["Missing #CHROM header line"],
            false⟩
    else
      let errs := errs ++
        (if scan.header_line = none then ["Missing #CHROM header line"] else [])
      let fmtSmp : Bool × Bool :=
        match scan.header_line with
        | some h =>
          let cols := strSplit (String.mk (h.toList.dropWhile (· = '#'))) '\t'
          (decide (8 < cols.length), decide (9 < cols.length))
        | none => (false, false)
      match scan.data_lines.foldl
          (fun acc line => acc.bind (fun st => processRowE fmtSmp.1 fmtSmp.2 st line))
          (some ⟨0, [], []⟩) with
      | none => none
      | some st =>
        some ⟨scan.patient_id, st.total_variants, st.pgx_variants, st.gene_variants,
              sortStrings (st.gene_variants.map Prod.fst), errs, true⟩

/-- Modelled from the words of claim C8: the classifier obtained from
determine_phenotype by deleting the CYP2C19 gain-of-function clause
entirely (the branch structure of classify_band without the inner
gain-of-function conditional). -/
def classify_band_no_gof (gene : String) (total : Rat) : String :=
  if gene = "TPMT" ∨ gene = "DPYD" then
    if total = 0 then "PM" else if total ≤ 1 then "IM" else "NM"
  else if gene = "SLCO1B1" then
    if total = 0 then "PM" else if total < 2 then "IM" else "NM"
  else
    if total = 0 then "PM"
    else if total < 1 then "IM"
    else if total ≤ 2 then "NM"
    else if total ≤ 2.5 then "RM"
    else "URM"

/-- Modelled from the words of claim C8: determine_phenotype with the
CYP2C19 gain-of-function clause deleted. -/
def determine_phenotype_no_gof (allele1 allele2 gene : String) : String :=
  classify_band_no_gof gene
    (get_allele_activity allele1 gene + get_allele_activity allele2 gene)

/-- A CYP2D6 variant row used to probe diplotype resolution. -/
def c4Row (star genotype : String) : Variant :=
  ⟨"rs0", "CYP2D6", "22", 0, "C", "T", star, genotype, "no_function", 0, ""⟩

/-- A parse result whose CYP2D6 list carries the same star label twice,
both rows heterozygous. -/
def c4DupParsed : ParseResult :=
  ⟨"PATIENT_001", 2, [], [("CYP2D6", [c4Row "*4" "0/1", c4Row "*4" "0/1"])],
   ["CYP2D6"], [], true⟩

/-- A parse result whose CYP2D6 list starts with an unlabeled homozygous
row followed by the single labeled row, which is heterozygous. -/
def c4FirstRowParsed : ParseResult :=
  ⟨"PATIENT_001", 2, [], [("CYP2D6", [c4Row "unknown" "1/1", c4Row "*4" "0/1"])],
   ["CYP2D6"], [], true⟩

/-- A parse result whose CYP2D6 list is a single labeled heterozygous
row. -/
def c4SingleParsed : ParseResult :=
  ⟨"PATIENT_001", 1, [], [("CYP2D6", [c4Row "*4" "0/1"])], ["CYP2D6"], [], true⟩

-- ━━━━━━━━━━━━━━━━━━━━━━━━━━━━━━━━━━━━━━━━━━━━━━━━━━━━━━━━━━━━━━━━
-- Claims
-- ━━━━━━━━━━━━━━━━━━━━━━━━━━━━━━━━━━━━━━━━━━━━━━━━━━━━━━━━━━━━━━━━

/-- C6: for every gene g and every pair of star-allele labels (a, b),
determine_phenotype a b g = determine_phenotype b a g — the sum-based
classifier is commutative in its two allele arguments. -/
theorem claim_C6_classifier_commutative (a b g : String) :
    determine_phenotype a b g = determine_phenotype b a g := by
  unfold determine_phenotype
  rw [add_comm (get_allele_activity a g) (get_allele_activity b g), Bool.or_comm]

/-- The gain-of-function clause is dead: inside the total ≤ 2 branch the
guard total ≥ 2.5 can never hold. -/
theorem classify_band_eq_no_gof (gene : String) (total : Rat) (gof : Bool) :
    classify_band gene total gof = classify_band_no_gof gene total := by
  unfold classify_band classify_band_no_gof
  split_ifs <;> first | rfl | linarith

/-- C8: determine_phenotype is extensionally equal to the classifier with
the CYP2C19 gain-of-function clause deleted — the clause is nested inside
the total ≤ 2.0 branch yet requires total ≥ 2.5, so it never fires. -/
theorem claim_C8_gof_clause_dead (a b g : String) :
    determine_phenotype a b g = determine_phenotype_no_gof a b g := by
  unfold determine_phenotype determine_phenotype_no_gof
  exact classify_band_eq_no_gof g _ _

/-- C9: determine_phenotype is total (a Lean function by construction) and
always returns one of the five labels; genes outside the tracked set, and
allele pairs whose labels are unmapped (activity defaulting to 1.0), yield
"NM". -/
theorem claim_C9_total_and_five_labels (a b g : String) :
    (determine_phenotype a b g = "PM" ∨ determine_phenotype a b g = "IM" ∨
     determine_phenotype a b g = "NM" ∨ determine_phenotype a b g = "RM" ∨
     determine_phenotype a b g = "URM") ∧
    (g ∉ TARGET_GENES → determine_phenotype a b g = "NM") ∧
    (get_allele_activity a g = 1 → get_allele_activity b g = 1 →
      determine_phenotype a b g = "NM") := by
  refine ⟨?_, ?_, ?_⟩
  · unfold determine_phenotype classify_band
    split_ifs <;> simp
  · intro hg
    simp only [TARGET_GENES, List.mem_cons, List.not_mem_nil, or_false, not_or] at hg
    obtain ⟨h1, h2, h3, h4, h5, h6⟩ := hg
    have ha : get_allele_activity a g = 1 := by
      simp [get_allele_activity, h1, h2, h3, h4, h5, h6]
    have hb : get_allele_activity b g = 1 := by
      simp [get_allele_activity, h1, h2, h3, h4, h5, h6]
    unfold determine_phenotype classify_band
    rw [ha, hb]
    split_ifs <;> first | rfl | norm_num at *
  · intro ha hb
    unfold determine_phenotype classify_band
    rw [ha, hb]
    split_ifs <;> first | rfl | norm_num at *

/-- Closed instance of C9: an entirely unknown gene with unknown alleles is
classified "NM". -/
theorem claim_C9_total_and_five_labels_witness :
    determine_phenotype "*99" "*98" "GENEX" = "NM" :=
  (claim_C9_total_and_five_labels "*99" "*98" "GENEX").2.1 (by decide)

/-- C1: for every allele pair and every tracked gene outside
{TPMT, DPYD, SLCO1B1}, determine_phenotype follows the cytochrome-P450
bands on the summed activity score: 0 → PM; (0,1) → IM; [1,2] → NM unless
the gene is CYP2C19 with a designated gain-of-function allele and
total ≥ 2.5, then RM (a vacuous proviso, since total ≤ 2 there);
(2, 2.5] → RM; (2.5, ∞) → URM. -/
theorem claim_C1_cyp_phenotype_bands (a b g : String) (hg : g ∈ TARGET_GENES)
    (h1 : g ≠ "TPMT") (h2 : g ≠ "DPYD") (h3 : g ≠ "SLCO1B1") :
    (get_allele_activity a g + get_allele_activity b g = 0 →
      determine_phenotype a b g = "PM") ∧
    (0 < get_allele_activity a g + get_allele_activity b g ∧
        get_allele_activity a g + get_allele_activity b g < 1 →
      determine_phenotype a b g = "IM") ∧
    (1 ≤ get_allele_activity a g + get_allele_activity b g ∧
        get_allele_activity a g + get_allele_activity b g ≤ 2 →
      determine_phenotype a b g =
        if g = "CYP2C19" ∧ (a ∈ GAIN_OF_FUNCTION ∨ b ∈ GAIN_OF_FUNCTION) ∧
            2.5 ≤ get_allele_activity a g + get_allele_activity b g
        then "RM" else "NM") ∧
    (2 < get_allele_activity a g + get_allele_activity b g ∧
        get_allele_activity a g + get_allele_activity b g ≤ 2.5 →
      determine_phenotype a b g = "RM") ∧
    (2.5 < get_allele_activity a g + get_allele_activity b g →
      determine_phenotype a b g = "URM") := by
  have e1 : (g = "TPMT" ∨ g = "DPYD") = False := by simp [h1, h2]
  have e2 : (g = "SLCO1B1") = False := by simp [h3]
  refine ⟨?_, ?_, ?_, ?_, ?_⟩
  · intro h
    simp only [determine_phenotype, classify_band, e1, e2, if_false, h]
    norm_num
  · rintro ⟨hl, hr⟩
    simp only [determine_phenotype, classify_band, e1, e2, if_false]
    rw [if_neg hl.ne', if_pos hr]
  · rintro ⟨hl, hr⟩
    simp only [determine_phenotype, classify_band, e1, e2, if_false]
    rw [if_neg (by intro h0; rw [h0] at hl; norm_num at hl),
        if_neg (not_lt.mpr hl), if_pos hr]
    by_cases hG : g = "CYP2C19"
    · subst hG
      by_cases hM : a = "*17" ∨ b = "*17"
      · have hT : ¬ ((2.5 : Rat) ≤
            get_allele_activity a "CYP2C19" + get_allele_activity b "CYP2C19") := by
          intro hT; linarith
        simp [GAIN_OF_FUNCTION, hM, hT]
      · push_neg at hM
        simp [GAIN_OF_FUNCTION, hM.1, hM.2]
    · simp [hG]
  · rintro ⟨hl, hr⟩
    simp only [determine_phenotype, classify_band, e1, e2, if_false]
    rw [if_neg (by intro h0; rw [h0] at hl; norm_num at hl),
        if_neg (by intro hlt; linarith), if_neg (not_le.mpr hl), if_pos hr]
  · intro h
    simp only [determine_phenotype, classify_band, e1, e2, if_false]
    rw [if_neg (by intro h0; rw [h0] at h; norm_num at h),
        if_neg (by intro hlt; linarith), if_neg (by intro hle; linarith),
        if_neg (not_le.mpr h)]

/-- Closed instance of C1: for CYP2D6 with the null alleles *4/*6 the
summed score is 0 and the phenotype is PM. -/
theorem claim_C1_cyp_phenotype_bands_witness :
    determine_phenotype "*4" "*6" "CYP2D6" = "PM" :=
  (claim_C1_cyp_phenotype_bands "*4" "*6" "CYP2D6" (by decide) (by decide)
      (by decide) (by decide)).1
    (by simp [get_allele_activity, lookupD, lookupTable])

/-- C2 counterexample: for the unlisted drug TYLENOL the static-fallback
result carries severity "low", not "unknown" as the claim states. -/
theorem claim_C2_counterexample :
    (assess_risk "TYLENOL" "NM" "").risk_assessment.severity = "low" ∧
    ("low" : String) ≠ "unknown" :=
  ⟨rfl, by decide⟩

/-- C2 as amended: for every phenotype and every drug whose canonical name
is absent from the static risk matrix, assess_risk (with no external source
yielding a result) returns risk_label "Unknown", confidence_score 0.0 and
severity "low" (not "unknown"), with the generic no-data recommendation and
urgency "routine". -/
theorem claim_C2_unknown_drug_default (drug phenotype gene : String)
    (h : lookupTable RISK_MATRIX (resolve_drug drug) = none) :
    assess_risk drug phenotype gene = unknownDrugResult drug ∧
    (assess_risk drug phenotype gene).risk_assessment.risk_label = "Unknown" ∧
    (assess_risk drug phenotype gene).risk_assessment.confidence_score = 0 ∧
    (assess_risk drug phenotype gene).risk_assessment.severity = "low" ∧
    (assess_risk drug phenotype gene).clinical_recommendation.dosing_recommendation =
      "No pharmacogenomic data for " ++ drug ++ "." ∧
    (assess_risk drug phenotype gene).clinical_recommendation.alternative_drugs = [] ∧
    (assess_risk drug phenotype gene).clinical_recommendation.monitoring_parameters = [] ∧
    (assess_risk drug phenotype gene).clinical_recommendation.urgency = "routine" := by
  have he : assess_risk drug phenotype gene = unknownDrugResult drug := by
    simp [assess_risk, staticSegment, h]
  refine ⟨he, ?_, ?_, ?_, ?_, ?_, ?_, ?_⟩ <;>
    (rw [he]; simp [unknownDrugResult] <;> norm_num)

/-- Closed instance of the amended C2 at the unlisted drug TYLENOL. -/
theorem claim_C2_unknown_drug_default_witness :
    assess_risk "TYLENOL" "NM" "" = unknownDrugResult "TYLENOL" ∧
    (assess_risk "TYLENOL" "NM" "").risk_assessment.risk_label = "Unknown" ∧
    (assess_risk "TYLENOL" "NM" "").risk_assessment.confidence_score = 0 ∧
    (assess_risk "TYLENOL" "NM" "").risk_assessment.severity = "low" ∧
    (assess_risk "TYLENOL" "NM" "").clinical_recommendation.dosing_recommendation =
      "No pharmacogenomic data for " ++ "TYLENOL" ++ "." ∧
    (assess_risk "TYLENOL" "NM" "").clinical_recommendation.alternative_drugs = [] ∧
    (assess_risk "TYLENOL" "NM" "").clinical_recommendation.monitoring_parameters = [] ∧
    (assess_risk "TYLENOL" "NM" "").clinical_recommendation.urgency = "routine" :=
  claim_C2_unknown_drug_default "TYLENOL" "NM" "" rfl

/-- C10: in the static-fallback path the table-lookup segment always
returns (its Option result is always some), so the phenotype-inference
branches placed after the unconditional return are unreachable, and
assess_risk yields exactly one of three results: the unknown-drug default,
the unknown-phenotype default, or the matrix entry paired with its
recommendation entry. -/
theorem claim_C10_inference_unreachable (drug phenotype gene : String) :
    (∃ r, staticSegment drug phenotype = some r ∧
      assess_risk drug phenotype gene = r) ∧
    (assess_risk drug phenotype gene = unknownDrugResult drug ∨
     assess_risk drug phenotype gene = unknownPhenoResult drug ∨
     ∃ drugRow risk, lookupTable RISK_MATRIX (resolve_drug drug) = some drugRow ∧
       lookupTable drugRow phenotype = some risk ∧
       assess_risk drug phenotype gene =
         tableHitResult risk
           ((lookupTable CLINICAL_RECS (resolve_drug drug)).bind
             (fun t => lookupTable t phenotype))) := by
  cases hA : lookupTable RISK_MATRIX (resolve_drug drug) with
  | none =>
    refine ⟨⟨unknownDrugResult drug, ?_, ?_⟩, Or.inl ?_⟩ <;>
      simp [assess_risk, staticSegment, hA]
  | some drugRow =>
    cases hB : lookupTable drugRow phenotype with
    | none =>
      refine ⟨⟨unknownPhenoResult drug, ?_, ?_⟩, Or.inr (Or.inl ?_)⟩ <;>
        simp [assess_risk, staticSegment, hA, hB]
    | some risk =>
      refine ⟨⟨tableHitResult risk
          ((lookupTable CLINICAL_RECS (resolve_drug drug)).bind
            (fun t => lookupTable t phenotype)), ?_, ?_⟩,
        Or.inr (Or.inr ⟨drugRow, risk, rfl, hB, ?_⟩)⟩ <;>
        simp [assess_risk, staticSegment, hA, hB]

/-- C3: for every parsed VCF and every drug resolving to a tracked gene,
when zero pharmacogenomic variants were grouped under that gene,
build_profile_for_drug returns the homozygous-reference diplotype "*1/*1"
and phenotype "NM", never an unresolved state. -/
theorem claim_C3_no_variants_defaults_to_reference (parsed : ParseResult)
    (drug g : String)
    (h1 : (get_drug_gene_info (resolve_drug drug)).map (·.gene) = some g)
    (hg : g ∈ TARGET_GENES)
    (h2 : (lookupTable parsed.gene_variants g).getD [] = []) :
    (build_profile_for_drug parsed drug).primary_gene = g ∧
    (build_profile_for_drug parsed drug).diplotype = "*1/*1" ∧
    (build_profile_for_drug parsed drug).phenotype = "NM" := by
  cases ho : get_drug_gene_info (resolve_drug drug) with
  | none => rw [ho] at h1; simp at h1
  | some info =>
    rw [ho] at h1
    simp only [Option.map_some', Option.some.injEq] at h1
    subst h1
    have hne : info.gene ≠ "" := by
      intro h; rw [h] at hg; simp [TARGET_GENES] at hg
    refine ⟨?_, ?_, ?_⟩ <;> simp [build_profile_for_drug, ho, hne, h2]

/-- Closed instance of C3: an empty parse result and the drug CODEINE. -/
theorem claim_C3_no_variants_defaults_to_reference_witness :
    (build_profile_for_drug ⟨"PATIENT_001", 0, [], [], [], [], false⟩
        "CODEINE").primary_gene = "CYP2D6" ∧
    (build_profile_for_drug ⟨"PATIENT_001", 0, [], [], [], [], false⟩
        "CODEINE").diplotype = "*1/*1" ∧
    (build_profile_for_drug ⟨"PATIENT_001", 0, [], [], [], [], false⟩
        "CODEINE").phenotype = "NM" :=
  claim_C3_no_variants_defaults_to_reference _ "CODEINE" "CYP2D6" rfl
    (by decide) rfl

/-- C5: a structurally valid data row (at least 5 tab-separated fields)
whose extracted genotype is exactly "0/0" or "0|0" increments
total_variants and changes nothing else: it is never appended to
pgx_variants nor to the per-gene grouping.  processRow is the loop body
parse_vcf folds over its data lines. -/
theorem claim_C5_homref_counted_not_collected (hf hs : Bool) (st : RowState)
    (line : String) (h5 : ¬ (strSplit line '\t').length < 5)
    (hgt : genotype_of_row hf hs (strSplit line '\t') = "0/0" ∨
        genotype_of_row hf hs (strSplit line '\t') = "0|0") :
    processRow hf hs st line =
      { st with total_variants := st.total_variants + 1 } := by
  simp [processRow, h5, hgt]

/-- Closed instance of C5: a ten-column row with genotype 0/0 is counted
and nothing is collected. -/
theorem claim_C5_homref_counted_not_collected_witness :
    processRow true true ⟨0, [], []⟩
      "1\t2\trs1\tA\tG\t.\t.\t.\tGT\t0/0" = ⟨0 + 1, [], []⟩ :=
  claim_C5_homref_counted_not_collected true true ⟨0, [], []⟩
    "1\t2\trs1\tA\tG\t.\t.\t.\tGT\t0/0" (by decide) (Or.inl (by decide))

/-- C7 is refuted by the code: parse_vcf can raise.  On the input below
the single data row "22 ² rs3892097 C T" has five tab-separated fields,
no genotype and no INFO gene tag, and its identifier rs3892097 matches
the catalog, so the source reaches `int(pos) if pos.isdigit() else 0`
(vcf_parser.py line 213) with pos = "²".  Python isdigit() accepts "²"
but int() rejects it with a ValueError that nothing catches, so
parse_vcf terminates in an exception instead of returning a ParseResult:
the exception-aware model returns none on this input. -/
theorem claim_C7_parse_vcf_raises :
    parse_vcfE "##fileformat=VCFv4.2\n22\t²\trs3892097\tC\tT" = none ∧
    pyIsDigit "²" = true ∧
    strToNat "²" = none ∧
    position_of "²" = none := by
  refine ⟨?_, ?_, ?_, ?_⟩ <;> rfl

/-- C4 counterexample, two facets.  Facet 1: a list carrying exactly one
distinct star-allele label ("*4", occurring twice) with no homozygous
genotype resolves to ("*4", "*4"), not to the claimed ("*1", "*4") — the
code keys on the number of labeled rows, not distinct labels.  Facet 2:
with one labeled row whose genotype is "0/1" sitting after an unlabeled
"1/1" row, resolution again yields ("*4", "*4") — the code reads the
genotype of the first row of the gene's list, not of the row carrying the
label. -/
theorem claim_C4_counterexample :
    (dedupFirst (([c4Row "*4" "0/1", c4Row "*4" "0/1"].filter
        (fun v => v.star != "" && v.star != "unknown")).map (·.star)) = ["*4"]) ∧
    (c4Row "*4" "0/1").genotype = "0/1" ∧
    (build_profile_for_drug c4DupParsed "CODEINE").diplotype = "*4/*4" ∧
    ("*4/*4" : String) ≠ "*1/*4" ∧
    (([c4Row "unknown" "1/1", c4Row "*4" "0/1"].filter
        (fun v => v.star != "" && v.star != "unknown")).map (·.star) = ["*4"]) ∧
    (build_profile_for_drug c4FirstRowParsed "CODEINE").diplotype = "*4/*4" := by
  refine ⟨?_, ?_, ?_, ?_, ?_, ?_⟩ <;> first | rfl | decide

/-- C4 as amended: for every gene variant list in which exactly one row
carries a star-allele label, diplotype resolution yields (label, label)
when the genotype of the first row of the gene's list is "1/1" or "1|1",
and ("*1", label) otherwise. -/
theorem claim_C4_single_label_diplotype (parsed : ParseResult)
    (drug g lab : String) (gvs : List Variant)
    (h1 : (get_drug_gene_info (resolve_drug drug)).map (·.gene) = some g)
    (hne : g ≠ "")
    (hgv : (lookupTable parsed.gene_variants g).getD [] = gvs)
    (hstars : (gvs.filter (fun v => v.star != "" && v.star != "unknown")).map (·.star)
        = [lab]) :
    (build_profile_for_drug parsed drug).diplotype =
      if ((gvs.head?.map (·.genotype)).getD "" = "1/1" ∨
          (gvs.head?.map (·.genotype)).getD "" = "1|1")
      then lab ++ "/" ++ lab else "*1/" ++ lab := by
  cases ho : get_drug_gene_info (resolve_drug drug) with
  | none => rw [ho] at h1; simp at h1
  | some info =>
    rw [ho] at h1
    simp only [Option.map_some', Option.some.injEq] at h1
    subst h1
    have hnil : gvs ≠ [] := by
      intro h; rw [h] at hstars; simp at hstars
    by_cases hgt : ((gvs.head?.map (·.genotype)).getD "" = "1/1" ∨
        (gvs.head?.map (·.genotype)).getD "" = "1|1") <;>
      simp [build_profile_for_drug, ho, hne, hgv, hnil, hstars, hgt]

/-- Closed instance of the amended C4: a single labeled heterozygous row
resolves to the wildtype-partner diplotype. -/
theorem claim_C4_single_label_diplotype_witness :
    (build_profile_for_drug c4SingleParsed "CODEINE").diplotype =
      if (([c4Row "*4" "0/1"].head?.map (·.genotype)).getD "" = "1/1" ∨
          ([c4Row "*4" "0/1"].head?.map (·.genotype)).getD "" = "1|1")
      then "*4" ++ "/" ++ "*4" else "*1/" ++ "*4" :=
  claim_C4_single_label_diplotype c4SingleParsed "CODEINE" "CYP2D6" "*4"
    [c4Row "*4" "0/1"] rfl (by decide) rfl rfl

end PharmaGuard
